import Mathlib

/-!
Verification of the WatchSF civic-issue reporting front end
(src/next/src/app/page.tsx). The file embeds the audio WAV re-encoding
pipeline (convertToWav), the report workflow transitions (handleSubmit,
confirmAlert, renderActionButtons, handleClose, handleRemoveImage) and the
recording buffer logic (startRecording / ondataavailable), and proves the
specification's claims about them.
-/

set_option autoImplicit false

namespace WatchSF

/-! ### Byte-level primitives

DataView writes are modelled on lists of natural numbers (each < 256). -/

/-- Little-endian bytes stored by DataView.setUint16: the value modulo 2^16,
low byte first. -/
def u16le (n : ℕ) : List ℕ := [n % 256, n / 256 % 256]

/-- Little-endian bytes stored by DataView.setUint32: the value modulo 2^32,
low byte first. -/
def u32le (n : ℕ) : List ℕ :=
  [n % 256, n / 256 % 256, n / 65536 % 256, n / 16777216 % 256]

/-- Little-endian bytes stored by DataView.setInt16: the argument's two's
complement representation modulo 2^16. -/
def i16le (z : ℤ) : List ℕ := u16le (z % 65536).toNat

/-- Bytes written by the writeString helper of convertToWav: the code point of
each character of the tag. -/
def strBytes (s : String) : List ℕ := s.data.map Char.toNat

/-- The byte at offset `off`, as read back from a serialized buffer. -/
def readU8 (bs : List ℕ) (off : ℕ) : ℕ := bs.getD off 0

/-- Little-endian 16-bit read at offset `off`. -/
def readU16le (bs : List ℕ) (off : ℕ) : ℕ :=
  readU8 bs off + 256 * readU8 bs (off + 1)

/-- Little-endian 32-bit read at offset `off`. -/
def readU32le (bs : List ℕ) (off : ℕ) : ℕ :=
  readU8 bs off + 256 * readU8 bs (off + 1) + 65536 * readU8 bs (off + 2) +
    16777216 * readU8 bs (off + 3)

/-! ### Decoded PCM audio and convertToWav -/

/-- Decoded PCM audio as produced by decodeAudioData: the sample rate, the
frame count (`audioBuffer.length`) and one sample sequence per channel
(`getChannelData(i)`). Samples are modelled as rationals; every JS double
operation performed on them by convertToWav (one multiplication by 0x7FFF of a
32-bit float, then Math.floor / Math.ceil) is exact, so rational arithmetic is
faithful. -/
structure AudioBuffer where
  sampleRate : ℕ
  length : ℕ
  channelData : List (List ℚ)

/-- audioBuffer.numberOfChannels: the number of channel sequences. -/
def AudioBuffer.numberOfChannels (ab : AudioBuffer) : ℕ := ab.channelData.length

/-- The 16-bit value written for one floating-point sample by convertToWav:
`const sample = channelData[i][index] * 0x7FFF;` followed by
`sample < 0 ? Math.max(-0x8000, Math.floor(sample))
            : Math.min(0x7FFF, Math.ceil(sample))`. -/
def encodeSample (s : ℚ) : ℤ :=
  let sample := s * 32767
  if sample < 0 then max (-32768) ⌊sample⌋ else min 32767 ⌈sample⌉

/-- Restatement of the specification's wording of the sample conversion: scale
by 32767, round toward the nearer 16-bit boundary (floor when negative, ceil
otherwise), then clamp to the range [-32768, 32767]. Used only for comparison
against `encodeSample`, which is translated from the source. -/
def specSample (s : ℚ) : ℤ :=
  max (-32768) (min 32767 (if s < 0 then ⌊s * 32767⌋ else ⌈s * 32767⌉))

/-- The interleaved sequence of converted samples laid out by the write loop of
convertToWav: for each frame index in order, one converted sample per channel
(channel `i`'s sample is written at position `index * numberOfChannels + i`). -/
def sampleInts (ab : AudioBuffer) : List ℤ :=
  (List.range ab.length).flatMap fun index =>
    ab.channelData.map fun cd => encodeSample (cd.getD index 0)

/-- The data section of the WAV buffer: every interleaved sample written
little-endian by setInt16, two bytes each. -/
def dataBytes (ab : AudioBuffer) : List ℕ :=
  (sampleInts ab).flatMap i16le

/-- The 44-byte WAV header written by convertToWav, in write order:
"RIFF", 36 + dataLen, "WAVE", "fmt ", 16, format 1, channel count, sample
rate, byte rate, block align, bits per sample 16, "data", dataLen. -/
def wavHeader (numberOfChannels sampleRate dataLen : ℕ) : List ℕ :=
  strBytes "RIFF" ++ u32le (36 + dataLen) ++ strBytes "WAVE" ++ strBytes "fmt " ++
    u32le 16 ++ u16le 1 ++ u16le numberOfChannels ++ u32le sampleRate ++
    u32le (sampleRate * numberOfChannels * 2) ++ u16le (numberOfChannels * 2) ++
    u16le 16 ++ strBytes "data" ++ u32le dataLen

/-- convertToWav: the serialized WAV buffer, header followed by the
interleaved 16-bit data section (`length = audioBuffer.length *
numberOfChannels * 2` is the data byte length). -/
def convertToWav (ab : AudioBuffer) : List ℕ :=
  wavHeader ab.numberOfChannels ab.sampleRate (ab.length * ab.numberOfChannels * 2) ++
    dataBytes ab

/-! ### Report workflow controller state -/

/-- Classification response returned by the evaluate endpoint
(`EvaluationResponse` in page.tsx). The report_data payload is opaque to the
client and modelled as an abstract string. -/
structure EvaluationResponse where
  level : String
  confidence : ℚ
  reasoning : String
  recommended_action : String
  trigger : String
  report_data : String
deriving DecidableEq

/-- The component state of Home: one field per useState hook that the workflow
touches. -/
structure AppState where
  issueText : String
  selectedImages : List String
  analysis : Option String
  isLoading : Bool
  severity : Option String
  address : Option String
  feedbackMessage : Option String
  isRecording : Bool
  showForm : Bool
  showAnalysis : Bool
  analysisResult : Option EvaluationResponse
deriving DecidableEq

/-- Confirm endpoint selected by confirmAlert:
`isEmergency ? 'http://localhost:8000/confirm-911' : 'http://localhost:8000/confirm-311'`. -/
def confirmUrl (isEmergency : Bool) : String :=
  if isEmergency then "http://localhost:8000/confirm-911"
  else "http://localhost:8000/confirm-311"

/-- Request bodies the component can send: a JSON.stringify body
(as in confirmAlert) or a FormData body (as in getAnalysis). -/
inductive HttpBody
  | jsonReport (report_data : Option String) (image_base64 : Option String)
  | formDataBody (text : String) (location : String) (image : Option String)
deriving DecidableEq

/-- Whether a body is a multipart FormData body. -/
def HttpBody.isMultipartForm : HttpBody → Bool
  | .jsonReport _ _ => false
  | .formDataBody _ _ _ => true

/-- The image handles a body carries. -/
def HttpBody.attachedImages : HttpBody → List String
  | .jsonReport _ img => img.toList
  | .formDataBody _ _ img => img.toList

/-- An outbound HTTP request. -/
structure HttpRequest where
  url : String
  contentTypeHeader : Option String
  body : HttpBody
deriving DecidableEq

/-- The single fetch issued by confirmAlert: the Content-Type header is
application/json and the body is JSON.stringify of the stored report_data and
the base64 encoding of the first attached image when one exists (the base64
text itself is irrelevant here, so the image is identified by its handle). -/
def confirmRequest (isEmergency : Bool) (s : AppState) : HttpRequest :=
  { url := confirmUrl isEmergency
    contentTypeHeader := some "application/json"
    body := .jsonReport (s.analysisResult.map fun r => r.report_data)
      s.selectedImages.head? }

/-- Result of awaiting the confirm fetch: ok, or a failure (a thrown network
error or a non-OK response, both of which land in the catch branch). -/
inductive FetchOutcome
  | ok
  | fail
deriving DecidableEq

/-- State transition of confirmAlert: the request is issued, then on a
successful response the feedback message for the chosen channel is stored;
on failure the catch branch only raises a browser alert and the component
state is untouched. Returns (new state, issued request, alert message). -/
def confirmAlert (isEmergency : Bool) (outcome : FetchOutcome) (s : AppState) :
    AppState × HttpRequest × Option String :=
  match outcome with
  | .ok =>
      ({ s with feedbackMessage := some (if isEmergency then
            "Emergency services have been notified."
          else "Report sent to 311 services.") },
        confirmRequest isEmergency s, none)
  | .fail =>
      (s, confirmRequest isEmergency s,
        some "Failed to submit 311 report. Please try again.")

/-- Behavior attached to a rendered action button: the confirm buttons run
handleAction, which awaits confirmAlert with the matching flag; Close runs
handleClose. -/
inductive ButtonAction
  | callConfirm (isEmergency : Bool)
  | closeOnly
deriving DecidableEq

/-- renderActionButtons: the switch over severity. Each branch renders exactly
one button (its label and click behavior); the default branch renders none. -/
def renderActionButtons (severity : Option String) : List (String × ButtonAction) :=
  match severity with
  | some "EMERGENCY" => [("Call 911", .callConfirm true)]
  | some "NON_EMERGENCY" => [("Report to 311", .callConfirm false)]
  | some "NO_CONCERN" => [("Close", .closeOnly)]
  | _ => []

/-- Confirm-endpoint URLs reached by clicking a button: a confirm button leads
to confirmAlert's single fetch; the Close button runs handleClose, which makes
no request. -/
def buttonConfirmUrls (s : AppState) : ButtonAction → List String
  | .callConfirm e => [(confirmRequest e s).url]
  | .closeOnly => []

/-- handleRemoveImage: revokes the object URL (exactly one revocation) and
filters it out of selectedImages. Returns (new state, revoked URLs). -/
def handleRemoveImage (imageUrl : String) (s : AppState) : AppState × List String :=
  ({ s with selectedImages := s.selectedImages.filter fun img => img ≠ imageUrl },
    [imageUrl])

/-- handleClose: hides the analysis panel and, after the 300 ms cosmetic delay
(modelled as immediate), clears feedback, analysis, severity and address,
revokes every remaining image URL, empties the image list and the text, and
shows the form again. analysisResult is not touched by the source. Returns
(new state, revoked URLs). -/
def handleClose (s : AppState) : AppState × List String :=
  ({ s with
      showAnalysis := false, feedbackMessage := none, analysis := none,
      severity := none, address := none, selectedImages := [],
      issueText := "", showForm := true },
    s.selectedImages)

/-- Location value resolved by getLocation: coordinates plus the geocoded
address when the nominatim reverse lookup succeeded. -/
structure LocationData where
  lat : ℚ
  lon : ℚ
  address : Option String
deriving DecidableEq

/-- How far handleSubmit's awaited sequence got: getLocation rejected
(geolocation denied or unsupported), getAnalysis threw (network error or
non-OK evaluation response), or the evaluation succeeded. -/
inductive SubmitOutcome
  | locationFailed
  | analysisFailed (loc : LocationData)
  | analysisOk (loc : LocationData) (resp : EvaluationResponse)
deriving DecidableEq

/-- State transition of handleSubmit: sets isLoading, awaits getLocation
(which stores the geocoded address when the reverse lookup succeeds), awaits
getAnalysis (which stores the response in analysisResult), then stores
severity and reasoning and reveals the analysis panel; any thrown error
reaches the catch branch, which only raises an alert; finally isLoading is
cleared. Returns (new state, alert message). -/
def handleSubmit (o : SubmitOutcome) (s : AppState) : AppState × Option String :=
  match o with
  | .locationFailed =>
      ({ s with isLoading := false },
        some "An error occurred while analyzing the issue.")
  | .analysisFailed loc =>
      ({ s with
          address := match loc.address with | some a => some a | none => s.address,
          isLoading := false },
        some "An error occurred while analyzing the issue.")
  | .analysisOk loc resp =>
      ({ s with
          address := match loc.address with | some a => some a | none => s.address,
          analysisResult := some resp,
          severity := some resp.level,
          analysis := some resp.reasoning,
          showForm := false, showAnalysis := true,
          isLoading := false },
        none)

/-- Status of one step marker of the progress UI described by the
specification. -/
inductive StepStatus
  | waiting
  | processing
  | completed
  | error
deriving DecidableEq

/-- Modelled from the spec: the WorkflowStep progress markers (spec section 3)
and the showSteps flag (spec section 9) do not appear in the source under
src/; per spec section 4.2(d), a fatal submit failure "marks all steps as
error". -/
def stepsOnFatalFailure (steps : List StepStatus) : List StepStatus :=
  steps.map fun _ => StepStatus.error

/-! ### Audio capture -/

/-- One compressed audio fragment delivered by a dataavailable event
(event.data): its byte size and an abstract payload identifier. -/
structure BlobChunk where
  size : ℕ
  payload : ℕ
deriving DecidableEq

/-- The ondataavailable handler: pushes the event's data onto the chunk buffer
only when its size is strictly positive. -/
def ondataavailable (chunks : List BlobChunk) (eventData : BlobChunk) : List BlobChunk :=
  if 0 < eventData.size then chunks ++ [eventData] else chunks

/-- startRecording assigns `audioChunksRef.current = []` before the recorder
starts, whatever buffer a previous session left behind. -/
def startRecordingBuffer (_prevBuffer : List BlobChunk) : List BlobChunk := []

/-- The chunk buffer at the end of a recording session: starting from the
reset buffer, each delivered fragment is processed by ondataavailable in
arrival order. The onstop handler assembles the blob from exactly this
buffer (`new Blob(audioChunksRef.current)`). -/
def sessionChunks (prevBuffer events : List BlobChunk) : List BlobChunk :=
  events.foldl ondataavailable (startRecordingBuffer prevBuffer)

/-- Transcription handling in mediaRecorder.onstop: when result.text is truthy
(present and nonempty) the trimmed text is appended to the draft description,
`prev + ' ' + result.text.trim()`; otherwise the text is left alone. -/
def onstopIssueText (result_text : Option String) (prev : String) : String :=
  match result_text with
  | some t => if t = "" then prev else (prev ++ " ") ++ t.trim
  | none => prev

/-! ### Concrete example values used by witnesses and counterexamples -/

/-- A concrete evaluation response. -/
def sampleEvaluation : EvaluationResponse :=
  { level := "NON_EMERGENCY", confidence := 9 / 10, reasoning := "pothole",
    recommended_action := "report", trigger := "311", report_data := "payload" }

/-- A concrete awaiting-confirmation state with two attached images. -/
def sampleState : AppState :=
  { issueText := "pothole on 5th", selectedImages := ["blob:a", "blob:b"],
    analysis := some "pothole", isLoading := false,
    severity := some "NON_EMERGENCY", address := some "5th St",
    feedbackMessage := none, isRecording := false, showForm := false,
    showAnalysis := true, analysisResult := some sampleEvaluation }

/-- A concrete decoded PCM buffer: one channel, two frames at 8000 Hz. -/
def sampleAudio : AudioBuffer :=
  { sampleRate := 8000, length := 2, channelData := [[1 / 2, -1 / 2]] }

/-! ### Theorems -/

/-- C2 counterexample: the claim that a sample of -1.0 encodes to -32768 is
false on the code: `Math.max(-0x8000, Math.floor(-1 * 0x7FFF))` is -32767. -/
theorem spec_c2_counterexample :
    ¬ (encodeSample 1 = 32767 ∧ encodeSample (-1) = -32768 ∧
        encodeSample 2 = 32767) := by
  intro h
  have h2 := h.2.1
  norm_num [encodeSample] at h2

/-- C2 (amended): the sample-conversion step encodes 1.0 to 32767, -1.0 to
-32767 (not -32768), and the out-of-domain 2.0 clamps to 32767 without
overflowing. -/
theorem spec_c2_clamping :
    encodeSample 1 = 32767 ∧ encodeSample (-1) = -32767 ∧
      encodeSample 2 = 32767 := by
  refine ⟨?_, ?_, ?_⟩ <;> norm_num [encodeSample]

/-- C4: confirm dispatch is total over severity and routes exclusively:
EMERGENCY renders exactly the Call 911 button whose click reaches only the
911-confirm endpoint, NON_EMERGENCY exactly the Report to 311 button reaching
only the 311-confirm endpoint, NO_CONCERN exactly a Close button that runs
handleClose with no confirm-endpoint call, and any unrecognized severity
renders no buttons at all. -/
theorem spec_c4_dispatch (s : AppState) (sev : Option String)
    (h1 : sev ≠ some "EMERGENCY") (h2 : sev ≠ some "NON_EMERGENCY")
    (h3 : sev ≠ some "NO_CONCERN") :
    renderActionButtons (some "EMERGENCY") =
      [("Call 911", ButtonAction.callConfirm true)] ∧
    buttonConfirmUrls s (ButtonAction.callConfirm true) =
      ["http://localhost:8000/confirm-911"] ∧
    renderActionButtons (some "NON_EMERGENCY") =
      [("Report to 311", ButtonAction.callConfirm false)] ∧
    buttonConfirmUrls s (ButtonAction.callConfirm false) =
      ["http://localhost:8000/confirm-311"] ∧
    renderActionButtons (some "NO_CONCERN") = [("Close", ButtonAction.closeOnly)] ∧
    buttonConfirmUrls s ButtonAction.closeOnly = [] ∧
    (handleClose s).1.showAnalysis = false ∧
    (handleClose s).1.showForm = true ∧
    renderActionButtons sev = [] := by
  refine ⟨rfl, rfl, rfl, rfl, rfl, rfl, rfl, rfl, ?_⟩
  rcases sev with _ | str
  · rfl
  · unfold renderActionButtons
    split <;> simp_all

/-- C4 witness: the dispatch theorem applied at the sample state and the
unrecognized severity value "BOGUS". -/
theorem spec_c4_dispatch_witness :
    ((some "BOGUS" : Option String) ≠ some "EMERGENCY" ∧
      (some "BOGUS" : Option String) ≠ some "NON_EMERGENCY" ∧
      (some "BOGUS" : Option String) ≠ some "NO_CONCERN") ∧
    (renderActionButtons (some "EMERGENCY") =
        [("Call 911", ButtonAction.callConfirm true)] ∧
      buttonConfirmUrls sampleState (ButtonAction.callConfirm true) =
        ["http://localhost:8000/confirm-911"] ∧
      renderActionButtons (some "NON_EMERGENCY") =
        [("Report to 311", ButtonAction.callConfirm false)] ∧
      buttonConfirmUrls sampleState (ButtonAction.callConfirm false) =
        ["http://localhost:8000/confirm-311"] ∧
      renderActionButtons (some "NO_CONCERN") =
        [("Close", ButtonAction.closeOnly)] ∧
      buttonConfirmUrls sampleState ButtonAction.closeOnly = [] ∧
      (handleClose sampleState).1.showAnalysis = false ∧
      (handleClose sampleState).1.showForm = true ∧
      renderActionButtons (some "BOGUS") = []) :=
  ⟨⟨by decide, by decide, by decide⟩,
    spec_c4_dispatch sampleState (some "BOGUS") (by decide) (by decide) (by decide)⟩

/-- C5 counterexample: with two attached images, the non-emergency confirm
request is not multipart and does not contain all attached images — the code
sends JSON with at most the first image. -/
theorem spec_c5_counterexample :
    ¬ ((confirmRequest false sampleState).body.isMultipartForm = true ∧
        (confirmRequest false sampleState).body.attachedImages =
          sampleState.selectedImages) := by
  intro h
  have h1 := h.1
  simp [confirmRequest, HttpBody.isMultipartForm] at h1

/-- C5 (amended): both the emergency and the non-emergency confirm call send a
JSON request (Content-Type application/json, not multipart) containing the
stored report payload and at most a single base64 image, namely the first
attached image when one exists. -/
theorem spec_c5_confirm_payloads (isEmergency : Bool) (s : AppState) :
    (confirmRequest isEmergency s).contentTypeHeader = some "application/json" ∧
    (confirmRequest isEmergency s).body =
      HttpBody.jsonReport (s.analysisResult.map fun r => r.report_data)
        s.selectedImages.head? ∧
    (confirmRequest isEmergency s).body.isMultipartForm = false ∧
    (confirmRequest isEmergency s).body.attachedImages.length ≤ 1 := by
  refine ⟨rfl, rfl, rfl, ?_⟩
  cases h : s.selectedImages <;>
    simp [confirmRequest, HttpBody.attachedImages, h]

/-- C6: on a successful transcription with truthy text, the trimmed text is
appended to the draft description separated by a space; the prior description
is preserved verbatim as a prefix (never replaced or truncated), for every
prior value including the empty string. -/
theorem spec_c6_transcription_appends (prev t : String) (ht : t ≠ "") :
    onstopIssueText (some t) prev = (prev ++ " ") ++ t.trim ∧
    (onstopIssueText (some t) prev).data = prev.data ++ (' ' :: t.trim.data) ∧
    (onstopIssueText (some t) prev).data.take prev.data.length = prev.data := by
  have hdata : (onstopIssueText (some t) prev).data =
      prev.data ++ (' ' :: t.trim.data) := by
    simp [onstopIssueText, ht, String.data_append]
  refine ⟨by simp [onstopIssueText, ht], hdata, ?_⟩
  rw [hdata]
  exact List.take_left prev.data (' ' :: t.trim.data)

/-- C6 witness: the append theorem applied to an empty prior draft and the
transcription text " hi there ". -/
theorem spec_c6_transcription_appends_witness :
    (" hi there " : String) ≠ "" ∧
    (onstopIssueText (some " hi there ") "" = ("" ++ " ") ++ " hi there ".trim ∧
      (onstopIssueText (some " hi there ") "").data =
        "".data ++ (' ' :: " hi there ".trim.data) ∧
      (onstopIssueText (some " hi there ") "").data.take "".data.length =
        "".data) :=
  ⟨by decide, spec_c6_transcription_appends "" " hi there " (by decide)⟩

/-- C7: when the confirm call fails, confirmAlert leaves the component state
exactly as it was — feedback message not set, evaluation result, severity,
draft text and images preserved — so the same confirm action re-triggered
behaves as if the failure never happened. -/
theorem spec_c7_confirm_failure_state (isEmergency : Bool) (o : FetchOutcome)
    (s : AppState) :
    (confirmAlert isEmergency FetchOutcome.fail s).1 = s ∧
    (confirmAlert isEmergency FetchOutcome.fail s).1.feedbackMessage =
      s.feedbackMessage ∧
    (confirmAlert isEmergency FetchOutcome.fail s).1.analysisResult =
      s.analysisResult ∧
    (confirmAlert isEmergency FetchOutcome.fail s).1.severity = s.severity ∧
    (confirmAlert isEmergency FetchOutcome.fail s).1.issueText = s.issueText ∧
    (confirmAlert isEmergency FetchOutcome.fail s).1.selectedImages =
      s.selectedImages ∧
    confirmAlert isEmergency o ((confirmAlert isEmergency FetchOutcome.fail s).1) =
      confirmAlert isEmergency o s :=
  ⟨rfl, rfl, rfl, rfl, rfl, rfl, rfl⟩

/-- C8: a fatal submit failure (geolocation denied or evaluation call failed)
only raises an alert and clears isLoading: the draft text and images are
unchanged and the compose-state visibility flags are untouched; the
spec-modelled step markers are all set to error. -/
theorem spec_c8_fatal_failure_frame (s : AppState) (loc : LocationData)
    (steps : List StepStatus) :
    (handleSubmit SubmitOutcome.locationFailed s).1.issueText = s.issueText ∧
    (handleSubmit SubmitOutcome.locationFailed s).1.selectedImages =
      s.selectedImages ∧
    (handleSubmit SubmitOutcome.locationFailed s).1.showForm = s.showForm ∧
    (handleSubmit SubmitOutcome.locationFailed s).1.showAnalysis =
      s.showAnalysis ∧
    (handleSubmit SubmitOutcome.locationFailed s).1.severity = s.severity ∧
    (handleSubmit SubmitOutcome.locationFailed s).1.analysis = s.analysis ∧
    (handleSubmit SubmitOutcome.locationFailed s).2 =
      some "An error occurred while analyzing the issue." ∧
    (handleSubmit (SubmitOutcome.analysisFailed loc) s).1.issueText =
      s.issueText ∧
    (handleSubmit (SubmitOutcome.analysisFailed loc) s).1.selectedImages =
      s.selectedImages ∧
    (handleSubmit (SubmitOutcome.analysisFailed loc) s).1.showForm =
      s.showForm ∧
    (handleSubmit (SubmitOutcome.analysisFailed loc) s).1.showAnalysis =
      s.showAnalysis ∧
    (handleSubmit (SubmitOutcome.analysisFailed loc) s).2 =
      some "An error occurred while analyzing the issue." ∧
    stepsOnFatalFailure steps = List.replicate steps.length StepStatus.error := by
  refine ⟨rfl, rfl, rfl, rfl, rfl, rfl, rfl, rfl, rfl, rfl, rfl, rfl, ?_⟩
  exact List.map_const' steps StepStatus.error

/-- Removing a URL from a list by handleRemoveImage's filter leaves no
occurrence of it. -/
theorem count_filter_ne_self (l : List String) (url : String) :
    (l.filter fun img => img ≠ url).count url = 0 := by
  rw [List.count_eq_zero]
  intro h
  have h2 := List.of_mem_filter h
  simp at h2

/-- C9 counterexample: handleClose does not clear the stored evaluation
result — analysisResult survives the reset, so the claim that resetting
clears "text, location, severity, and result" fails on the result. -/
theorem spec_c9_counterexample :
    (handleClose sampleState).1.analysisResult ≠ none := by
  simp [handleClose, sampleState]

/-- C9 (amended): removing an attached image revokes its handle exactly once
and removes it from the draft; resetting revokes each remaining handle exactly
once (no double release, no leak: a URL removed individually is not revoked
again by the reset) while clearing text, address, severity and the displayed
analysis — but the stored evaluation payload (analysisResult) is left in
place by the code. -/
theorem spec_c9_image_handles (s : AppState) (url : String)
    (hnd : s.selectedImages.Nodup) (hmem : url ∈ s.selectedImages) :
    (handleRemoveImage url s).2 = [url] ∧
    url ∉ (handleRemoveImage url s).1.selectedImages ∧
    ((handleClose s).2).count url = 1 ∧
    ((handleClose ((handleRemoveImage url s).1)).2).count url = 0 ∧
    ((handleRemoveImage url s).2 ++
        (handleClose ((handleRemoveImage url s).1)).2).count url = 1 ∧
    (handleClose s).1.selectedImages = [] ∧
    (handleClose s).1.issueText = "" ∧
    (handleClose s).1.address = none ∧
    (handleClose s).1.severity = none ∧
    (handleClose s).1.analysis = none ∧
    (handleClose s).1.analysisResult = s.analysisResult := by
  refine ⟨rfl, ?_, ?_, ?_, ?_, rfl, rfl, rfl, rfl, rfl, rfl⟩
  · intro h
    simp [handleRemoveImage] at h
  · exact List.count_eq_one_of_mem hnd hmem
  · exact count_filter_ne_self s.selectedImages url
  · have h0 := count_filter_ne_self s.selectedImages url
    simp [List.count_append, handleRemoveImage, handleClose]
    simpa using h0

/-- C9 witness: the handle-release theorem applied at the sample state and its
first image. -/
theorem spec_c9_image_handles_witness :
    (sampleState.selectedImages.Nodup ∧
      "blob:a" ∈ sampleState.selectedImages) ∧
    ((handleRemoveImage "blob:a" sampleState).2 = ["blob:a"] ∧
      "blob:a" ∉ (handleRemoveImage "blob:a" sampleState).1.selectedImages ∧
      ((handleClose sampleState).2).count "blob:a" = 1 ∧
      ((handleClose ((handleRemoveImage "blob:a" sampleState).1)).2).count
        "blob:a" = 0 ∧
      ((handleRemoveImage "blob:a" sampleState).2 ++
          (handleClose ((handleRemoveImage "blob:a" sampleState).1)).2).count
        "blob:a" = 1 ∧
      (handleClose sampleState).1.selectedImages = [] ∧
      (handleClose sampleState).1.issueText = "" ∧
      (handleClose sampleState).1.address = none ∧
      (handleClose sampleState).1.severity = none ∧
      (handleClose sampleState).1.analysis = none ∧
      (handleClose sampleState).1.analysisResult =
        sampleState.analysisResult) :=
  ⟨⟨by decide, by decide⟩,
    spec_c9_image_handles sampleState "blob:a" (by decide) (by decide)⟩

/-- Folding the ondataavailable handler over the delivered fragments appends
exactly the fragments of positive size, in arrival order. -/
theorem foldl_ondataavailable (events : List BlobChunk) (acc : List BlobChunk) :
    events.foldl ondataavailable acc =
      acc ++ events.filter (fun e => 0 < e.size) := by
  induction events generalizing acc with
  | nil => simp
  | cons e t ih =>
      rw [List.foldl_cons, ih, List.filter_cons]
      by_cases h : 0 < e.size
      · simp [ondataavailable, h]
      · simp [ondataavailable, h]

/-- C10: the buffer assembled into the blob on stop consists of exactly the
fragments of strictly positive size delivered during the current session, in
arrival order; it does not depend on the buffer a previous session left
behind (startRecording resets it), and every chunk of it is a chunk of the
current session's events. -/
theorem spec_c10_session_buffer (prevBuffer events : List BlobChunk) :
    sessionChunks prevBuffer events = events.filter (fun e => 0 < e.size) ∧
    sessionChunks prevBuffer events = sessionChunks [] events ∧
    (sessionChunks prevBuffer events).Sublist events := by
  have h : sessionChunks prevBuffer events =
      events.filter (fun e => 0 < e.size) := by
    unfold sessionChunks startRecordingBuffer
    rw [foldl_ondataavailable]
    simp
  have h2 : sessionChunks [] events =
      events.filter (fun e => 0 < e.size) := by
    unfold sessionChunks startRecordingBuffer
    rw [foldl_ondataavailable]
    simp
  refine ⟨h, by rw [h, h2], ?_⟩
  rw [h]
  exact List.filter_sublist events

/-- Length of a flatMap whose pieces all have the same length. -/
theorem flatMap_length_const {α β : Type} (f : α → List β) (L : ℕ)
    (hL : ∀ a, (f a).length = L) (l : List α) :
    (l.flatMap f).length = l.length * L := by
  induction l with
  | nil => simp
  | cons a t ih =>
      simp only [List.flatMap_cons, List.length_append, hL, ih, List.length_cons]
      ring

/-- Indexing into a flatMap whose pieces all have the same length: position
k * L + r with r < L falls in the k-th piece at offset r. -/
theorem flatMap_getD_const {α β : Type} (f : α → List β) (L : ℕ)
    (hL : ∀ a, (f a).length = L) (d : β) (a₀ : α) :
    ∀ (l : List α) (k r : ℕ), k < l.length → r < L →
      (l.flatMap f).getD (k * L + r) d = (f (l.getD k a₀)).getD r d := by
  intro l
  induction l with
  | nil => intro k r hk _; exact absurd hk (by simp)
  | cons a t ih =>
      intro k r hk hr
      cases k with
      | zero =>
          rw [List.flatMap_cons, Nat.zero_mul, Nat.zero_add,
            List.getD_eq_getElem?_getD, List.getElem?_append,
            if_pos (by rw [hL]; exact hr), ← List.getD_eq_getElem?_getD,
            List.getD_cons_zero]
      | succ k' =>
          have harith : (k' + 1) * L + r = (f a).length + (k' * L + r) := by
            rw [hL]; ring
          rw [List.flatMap_cons, harith, List.getD_eq_getElem?_getD,
            List.getElem?_append_right (by omega), Nat.add_sub_cancel_left,
            ← List.getD_eq_getElem?_getD, List.getD_cons_succ]
          exact ih k' r (by simpa using hk) hr

/-- The WAV header is 44 bytes long. -/
theorem wavHeader_length (a b c : ℕ) : (wavHeader a b c).length = 44 := rfl

/-- There are numberOfChannels interleaved samples per frame. -/
theorem sampleInts_length (ab : AudioBuffer) :
    (sampleInts ab).length = ab.length * ab.numberOfChannels := by
  unfold sampleInts
  rw [flatMap_length_const _ ab.numberOfChannels
    (fun j => List.length_map ab.channelData _), List.length_range]

/-- The data section holds two bytes per interleaved sample. -/
theorem dataBytes_length (ab : AudioBuffer) :
    (dataBytes ab).length = ab.length * ab.numberOfChannels * 2 := by
  unfold dataBytes
  rw [flatMap_length_const i16le 2 (fun z => rfl), sampleInts_length]

/-- The interleaved sample at position index * numberOfChannels + i is channel
i's converted sample of frame index. -/
theorem sampleInts_getD (ab : AudioBuffer) (i index : ℕ)
    (hi : i < ab.numberOfChannels) (hindex : index < ab.length) :
    (sampleInts ab).getD (index * ab.numberOfChannels + i) 0 =
      encodeSample ((ab.channelData.getD i []).getD index 0) := by
  unfold sampleInts
  rw [flatMap_getD_const _ ab.numberOfChannels
      (fun j => List.length_map ab.channelData _) 0 0 (List.range ab.length)
      index i (by simpa using hindex) hi]
  rw [List.getD_eq_getElem (List.range ab.length) 0 (by simpa using hindex),
    List.getElem_range]
  rw [List.getD_eq_getElem?_getD, List.getElem?_map,
    List.getElem?_eq_getElem hi]
  simp only [Option.map_some', Option.getD_some]
  rw [List.getD_eq_getElem ab.channelData [] hi]

/-- Byte 2k + r of the data section is byte r of the k-th sample's
little-endian encoding. -/
theorem dataBytes_getD (ab : AudioBuffer) (k r : ℕ)
    (hk : k < ab.length * ab.numberOfChannels) (hr : r < 2) :
    (dataBytes ab).getD (k * 2 + r) 0 =
      (i16le ((sampleInts ab).getD k 0)).getD r 0 := by
  unfold dataBytes
  exact flatMap_getD_const i16le 2 (fun z => rfl) 0 0 (sampleInts ab) k r
    (by rwa [sampleInts_length]) hr

/-- Bytes past offset 44 of the WAV buffer come from the data section. -/
theorem convertToWav_getD_data (ab : AudioBuffer) (m : ℕ) :
    (convertToWav ab).getD (44 + m) 0 = (dataBytes ab).getD m 0 := by
  unfold convertToWav
  rw [List.getD_append_right _ _ _ _ (by rw [wavHeader_length]; omega),
    wavHeader_length, Nat.add_sub_cancel_left]

/-- convertToWav is the header followed by the data section. -/
theorem convertToWav_eq (ab : AudioBuffer) :
    convertToWav ab =
      wavHeader ab.numberOfChannels ab.sampleRate
        (ab.length * ab.numberOfChannels * 2) ++ dataBytes ab := rfl

set_option maxHeartbeats 1000000 in
/-- The header followed by any tail, normalized into its 44 explicit bytes. -/
theorem wavHeader_cons (ch sr dl : ℕ) (rest : List ℕ) :
    wavHeader ch sr dl ++ rest =
      82 :: 73 :: 70 :: 70 ::
      ((36 + dl) % 256) :: ((36 + dl) / 256 % 256) ::
      ((36 + dl) / 65536 % 256) :: ((36 + dl) / 16777216 % 256) ::
      87 :: 65 :: 86 :: 69 ::
      102 :: 109 :: 116 :: 32 ::
      16 :: 0 :: 0 :: 0 ::
      1 :: 0 ::
      (ch % 256) :: (ch / 256 % 256) ::
      (sr % 256) :: (sr / 256 % 256) :: (sr / 65536 % 256) ::
      (sr / 16777216 % 256) ::
      ((sr * ch * 2) % 256) :: ((sr * ch * 2) / 256 % 256) ::
      ((sr * ch * 2) / 65536 % 256) :: ((sr * ch * 2) / 16777216 % 256) ::
      ((ch * 2) % 256) :: ((ch * 2) / 256 % 256) ::
      16 :: 0 ::
      100 :: 97 :: 116 :: 97 ::
      (dl % 256) :: (dl / 256 % 256) :: (dl / 65536 % 256) ::
      (dl / 16777216 % 256) ::
      rest := rfl

/-- The code's sample conversion agrees with the specification's wording
(scale, round toward the nearer boundary, clamp to [-32768, 32767]) on every
input, not only on [-1, 1]. -/
theorem encodeSample_eq_specSample (s : ℚ) : encodeSample s = specSample s := by
  unfold encodeSample specSample
  by_cases h : s < 0
  · have hneg : s * 32767 < 0 := by nlinarith
    have hfl : ⌊s * 32767⌋ ≤ 32767 := by
      have h0 : ⌊s * 32767⌋ ≤ 0 := Int.floor_nonpos (le_of_lt hneg)
      omega
    rw [if_pos hneg, if_pos h, min_eq_right hfl]
  · have hge : (0 : ℚ) ≤ s := not_lt.mp h
    have hpos : ¬ s * 32767 < 0 := not_lt.mpr (by nlinarith)
    have hce : (0 : ℤ) ≤ ⌈s * 32767⌉ := Int.ceil_nonneg (by nlinarith)
    have hmin : (-32768 : ℤ) ≤ min 32767 ⌈s * 32767⌉ :=
      le_min (by norm_num) (by omega)
    rw [if_neg hpos, if_neg h, max_eq_right hmin]

/-- The clamped conversion never goes below -32768. -/
theorem specSample_lower (s : ℚ) : -32768 ≤ specSample s := le_max_left _ _

/-- The clamped conversion never exceeds 32767. -/
theorem specSample_upper (s : ℚ) : specSample s ≤ 32767 :=
  max_le (by norm_num) (min_le_left _ _)

/-- C1: every decoded sample s in [-1, 1] is converted exactly as the
specification words it — scaled by 32767, floored when negative and ceiled
otherwise, clamped to [-32768, 32767] — and its two's-complement bytes land
little-endian at data offset (index * numberOfChannels + i) * 2, channels
interleaved frame by frame. -/
theorem spec_c1_sample_conversion (ab : AudioBuffer) (i index : ℕ)
    (hi : i < ab.numberOfChannels) (hindex : index < ab.length) (s : ℚ)
    (hs : s = (ab.channelData.getD i []).getD index 0)
    (hlo : -1 ≤ s) (hhi : s ≤ 1) :
    encodeSample s = specSample s ∧
    -32768 ≤ encodeSample s ∧ encodeSample s ≤ 32767 ∧
    (convertToWav ab).getD (44 + (index * ab.numberOfChannels + i) * 2) 0 =
      (encodeSample s % 65536).toNat % 256 ∧
    (convertToWav ab).getD (44 + ((index * ab.numberOfChannels + i) * 2 + 1)) 0 =
      (encodeSample s % 65536).toNat / 256 % 256 := by
  have heq := encodeSample_eq_specSample s
  have hk : index * ab.numberOfChannels + i <
      ab.length * ab.numberOfChannels := by
    have h1 : index * ab.numberOfChannels + i <
        (index + 1) * ab.numberOfChannels := by
      have hsm : (index + 1) * ab.numberOfChannels =
          index * ab.numberOfChannels + ab.numberOfChannels := by ring
      omega
    have h2 : (index + 1) * ab.numberOfChannels ≤
        ab.length * ab.numberOfChannels :=
      Nat.mul_le_mul_right _ hindex
    omega
  refine ⟨heq, by rw [heq]; exact specSample_lower s,
    by rw [heq]; exact specSample_upper s, ?_, ?_⟩
  · rw [convertToWav_getD_data,
      ← Nat.add_zero ((index * ab.numberOfChannels + i) * 2),
      dataBytes_getD ab _ 0 hk (by omega),
      sampleInts_getD ab i index hi hindex, ← hs]
    rfl
  · rw [convertToWav_getD_data, dataBytes_getD ab _ 1 hk (by omega),
      sampleInts_getD ab i index hi hindex, ← hs]
    rfl

/-- C1 witness: the conversion theorem applied to the sample buffer's second
frame (sample -1/2 of channel 0). -/
theorem spec_c1_sample_conversion_witness :
    (0 < sampleAudio.numberOfChannels ∧ 1 < sampleAudio.length ∧
      (-1 / 2 : ℚ) = (sampleAudio.channelData.getD 0 []).getD 1 0 ∧
      (-1 : ℚ) ≤ -1 / 2 ∧ (-1 / 2 : ℚ) ≤ 1) ∧
    (encodeSample (-1 / 2) = specSample (-1 / 2) ∧
      -32768 ≤ encodeSample (-1 / 2) ∧ encodeSample (-1 / 2) ≤ 32767 ∧
      (convertToWav sampleAudio).getD
          (44 + (1 * sampleAudio.numberOfChannels + 0) * 2) 0 =
        (encodeSample (-1 / 2) % 65536).toNat % 256 ∧
      (convertToWav sampleAudio).getD
          (44 + ((1 * sampleAudio.numberOfChannels + 0) * 2 + 1)) 0 =
        (encodeSample (-1 / 2) % 65536).toNat / 256 % 256) := by
  have hi' : 0 < sampleAudio.numberOfChannels := by decide
  have hindex' : 1 < sampleAudio.length := by decide
  have hs' : (-1 / 2 : ℚ) = (sampleAudio.channelData.getD 0 []).getD 1 0 := by
    norm_num [sampleAudio, List.getD]
  have hlo' : (-1 : ℚ) ≤ -1 / 2 := by norm_num
  have hhi' : (-1 / 2 : ℚ) ≤ 1 := by norm_num
  exact ⟨⟨hi', hindex', hs', hlo', hhi'⟩,
    spec_c1_sample_conversion sampleAudio 0 1 hi' hindex' (-1 / 2) hs' hlo' hhi'⟩

set_option maxHeartbeats 1000000 in
/-- C3: for every valid PCM buffer (field values inside the 16/32-bit ranges
the header stores them in), the 44-byte header carries the specified
little-endian fields, and parsing the header back out of the encoded buffer
returns the original channel count, sample rate and data byte length. -/
theorem spec_c3_header_roundtrip (ab : AudioBuffer)
    (hch : ab.numberOfChannels < 32768)
    (hsr : ab.sampleRate < 4294967296)
    (hbr : ab.sampleRate * ab.numberOfChannels * 2 < 4294967296)
    (hdl : 36 + ab.length * ab.numberOfChannels * 2 < 4294967296) :
    (convertToWav ab).take 4 = strBytes "RIFF" ∧
    readU32le (convertToWav ab) 4 = (convertToWav ab).length - 8 ∧
    ((convertToWav ab).drop 8).take 4 = strBytes "WAVE" ∧
    ((convertToWav ab).drop 12).take 4 = strBytes "fmt " ∧
    readU32le (convertToWav ab) 16 = 16 ∧
    readU16le (convertToWav ab) 20 = 1 ∧
    readU16le (convertToWav ab) 22 = ab.numberOfChannels ∧
    readU32le (convertToWav ab) 24 = ab.sampleRate ∧
    readU32le (convertToWav ab) 28 = ab.sampleRate * ab.numberOfChannels * 2 ∧
    readU16le (convertToWav ab) 32 = ab.numberOfChannels * 2 ∧
    readU16le (convertToWav ab) 34 = 16 ∧
    ((convertToWav ab).drop 36).take 4 = strBytes "data" ∧
    readU32le (convertToWav ab) 40 = ab.length * ab.numberOfChannels * 2 ∧
    (convertToWav ab).length = 44 + ab.length * ab.numberOfChannels * 2 := by
  have hlen : (convertToWav ab).length =
      44 + ab.length * ab.numberOfChannels * 2 := by
    rw [convertToWav_eq, List.length_append, wavHeader_length, dataBytes_length]
  have hcons := wavHeader_cons ab.numberOfChannels ab.sampleRate
    (ab.length * ab.numberOfChannels * 2) (dataBytes ab)
  refine ⟨?_, ?_, ?_, ?_, ?_, ?_, ?_, ?_, ?_, ?_, ?_, ?_, ?_, hlen⟩
  · rw [convertToWav_eq, hcons]; rfl
  · rw [hlen, convertToWav_eq, hcons]
    norm_num [readU32le, readU8, List.getD]
    omega
  · rw [convertToWav_eq, hcons]; rfl
  · rw [convertToWav_eq, hcons]; rfl
  · rw [convertToWav_eq, hcons]; norm_num [readU32le, readU8, List.getD]
  · rw [convertToWav_eq, hcons]; norm_num [readU16le, readU8, List.getD]
  · rw [convertToWav_eq, hcons]
    norm_num [readU16le, readU8, List.getD]
    omega
  · rw [convertToWav_eq, hcons]
    norm_num [readU32le, readU8, List.getD]
    omega
  · rw [convertToWav_eq, hcons]
    norm_num [readU32le, readU8, List.getD]
    omega
  · rw [convertToWav_eq, hcons]
    norm_num [readU16le, readU8, List.getD]
    omega
  · rw [convertToWav_eq, hcons]; norm_num [readU16le, readU8, List.getD]
  · rw [convertToWav_eq, hcons]; rfl
  · rw [convertToWav_eq, hcons]
    norm_num [readU32le, readU8, List.getD]
    omega

/-- C3 witness: the header round-trip theorem applied to the sample buffer
(1 channel, 8000 Hz, 2 frames). -/
theorem spec_c3_header_roundtrip_witness :
    (sampleAudio.numberOfChannels < 32768 ∧
      sampleAudio.sampleRate < 4294967296 ∧
      sampleAudio.sampleRate * sampleAudio.numberOfChannels * 2 < 4294967296 ∧
      36 + sampleAudio.length * sampleAudio.numberOfChannels * 2 < 4294967296) ∧
    ((convertToWav sampleAudio).take 4 = strBytes "RIFF" ∧
      readU32le (convertToWav sampleAudio) 4 =
        (convertToWav sampleAudio).length - 8 ∧
      ((convertToWav sampleAudio).drop 8).take 4 = strBytes "WAVE" ∧
      ((convertToWav sampleAudio).drop 12).take 4 = strBytes "fmt " ∧
      readU32le (convertToWav sampleAudio) 16 = 16 ∧
      readU16le (convertToWav sampleAudio) 20 = 1 ∧
      readU16le (convertToWav sampleAudio) 22 = sampleAudio.numberOfChannels ∧
      readU32le (convertToWav sampleAudio) 24 = sampleAudio.sampleRate ∧
      readU32le (convertToWav sampleAudio) 28 =
        sampleAudio.sampleRate * sampleAudio.numberOfChannels * 2 ∧
      readU16le (convertToWav sampleAudio) 32 =
        sampleAudio.numberOfChannels * 2 ∧
      readU16le (convertToWav sampleAudio) 34 = 16 ∧
      ((convertToWav sampleAudio).drop 36).take 4 = strBytes "data" ∧
      readU32le (convertToWav sampleAudio) 40 =
        sampleAudio.length * sampleAudio.numberOfChannels * 2 ∧
      (convertToWav sampleAudio).length =
        44 + sampleAudio.length * sampleAudio.numberOfChannels * 2) := by
  have h1 : sampleAudio.numberOfChannels < 32768 := by decide
  have h2 : sampleAudio.sampleRate < 4294967296 := by decide
  have h3 : sampleAudio.sampleRate * sampleAudio.numberOfChannels * 2 <
      4294967296 := by decide
  have h4 : 36 + sampleAudio.length * sampleAudio.numberOfChannels * 2 <
      4294967296 := by decide
  exact ⟨⟨h1, h2, h3, h4⟩, spec_c3_header_roundtrip sampleAudio h1 h2 h3 h4⟩

end WatchSF
